import Mathlib

/- Verification development for the openspline NURBS curve library.

   Embedded code: the `ospl::NurbsCurve` class template of
   openspline/nurbs_curve.h, instantiated (as in nurbs_evaluate.cpp) at
   dimension 2; real scalars are idealized as `ℚ` wherever the code does
   exact-looking arithmetic, and as `ℝ` where it takes square roots
   (glm::normalize).  The evaluation free functions declared in the
   missing header nurbs_evaluate.h (isValidRelation, nurbsCurvePoint,
   nurbsRationalCurvePoint, nurbsCurveDerivatives) are modelled from the
   specification, as marked on each definition. -/

namespace Ospl

/-- A 2D vector (glm::vec<2, T> with rational scalars). -/
abbrev Vec2 := ℚ × ℚ

/-- Vector addition. -/
def vadd (a b : Vec2) : Vec2 := (a.1 + b.1, a.2 + b.2)

/-- Scalar multiple of a vector. -/
def vsmul (s : ℚ) (v : Vec2) : Vec2 := (s * v.1, s * v.2)

/-- Sum of a list of vectors. -/
def vsum (l : List Vec2) : Vec2 := l.foldr vadd (0, 0)

/-- Modelled from the spec: `isValidRelation` is declared in the missing
header nurbs_evaluate.h; per the spec, construction "fails with
InvalidKnotRelation when knots.length != degree + controlPoints.length + 1"
(the constructor's own throw message agrees: "nKnots != degree + nCtrlPts + 1"). -/
def isValidRelation (degree nKnots nCtrlPts : Nat) : Bool :=
  nKnots == degree + nCtrlPts + 1

/-- Modelled from the spec: `findSpan` of the missing BasisEvaluator.
Locates the knot span [knots[i], knots[i+1]) containing u by linear search
from index `deg`, special-casing u at or beyond the right end of the domain
to return the last valid span n = nCtrlPts - 1. -/
def findSpanAux (knots : List ℚ) (u : ℚ) : Nat → Nat → Nat
  | i, 0 => i
  | i, fuel + 1 => if u < knots.getD (i + 1) 0 then i else findSpanAux knots u (i + 1) fuel

/-- Modelled from the spec: see `findSpanAux`. -/
def findSpan (deg : Nat) (knots : List ℚ) (nCtrlPts : Nat) (u : ℚ) : Nat :=
  let n := nCtrlPts - 1
  if knots.getD (n + 1) 0 ≤ u then n
  else findSpanAux knots u deg (n - deg)

/-- Modelled from the spec: the Cox–de Boor recurrence for the B-spline
basis function N_{i,p}(u) over the given knot vector, treating 0/0 as 0 by
convention (repeated knots give zero-width intervals). -/
def Nbasis (knots : List ℚ) : Nat → Nat → ℚ → ℚ
  | i, 0, u => if knots.getD i 0 ≤ u ∧ u < knots.getD (i + 1) 0 then 1 else 0
  | i, p + 1, u =>
      let d1 := knots.getD (i + p + 1) 0 - knots.getD i 0
      let d2 := knots.getD (i + p + 2) 0 - knots.getD (i + 1) 0
      (if d1 = 0 then 0 else (u - knots.getD i 0) / d1 * Nbasis knots i p u) +
      (if d2 = 0 then 0 else (knots.getD (i + p + 2) 0 - u) / d2 * Nbasis knots (i + 1) p u)

/-- Modelled from the spec: the k-th derivative of N_{i,p}(u) via the
standard derivative recurrence on lower-degree basis values, with
zero-width knot intervals contributing 0. -/
def NbasisDer (knots : List ℚ) : Nat → Nat → Nat → ℚ → ℚ
  | 0, i, p, u => Nbasis knots i p u
  | _ + 1, _, 0, _ => 0
  | k + 1, i, p + 1, u =>
      let d1 := knots.getD (i + p + 1) 0 - knots.getD i 0
      let d2 := knots.getD (i + p + 2) 0 - knots.getD (i + 1) 0
      ((p : ℚ) + 1) *
        ((if d1 = 0 then 0 else NbasisDer knots k i p u / d1) -
         (if d2 = 0 then 0 else NbasisDer knots k (i + 1) p u / d2))

/-- Modelled from the spec: `nurbsCurvePoint` — the de Boor weighted sum
Σ basis[j] · controlPoints[span − degree + j] over the degree+1 locally
supported control points. -/
def nurbsCurvePoint (u : ℚ) (deg : Nat) (knots : List ℚ) (cps : List Vec2) : Vec2 :=
  let span := findSpan deg knots cps.length u
  vsum ((List.range (deg + 1)).map fun j =>
    vsmul (Nbasis knots (span - deg + j) deg u) (cps.getD (span - deg + j) (0, 0)))

/-- Modelled from the spec: `nurbsRationalCurvePoint` — lift each relevant
control point to homogeneous coordinates (x·w, y·w, w), apply the same
weighted sum, and divide by the trailing weight component. -/
def nurbsRationalCurvePoint (u : ℚ) (deg : Nat) (knots : List ℚ)
    (cps : List Vec2) (weights : List ℚ) : Vec2 :=
  let span := findSpan deg knots cps.length u
  let hw := vsum ((List.range (deg + 1)).map fun j =>
    vsmul (Nbasis knots (span - deg + j) deg u * weights.getD (span - deg + j) 0)
      (cps.getD (span - deg + j) (0, 0)))
  let wsum := ((List.range (deg + 1)).map fun j =>
    Nbasis knots (span - deg + j) deg u * weights.getD (span - deg + j) 0).foldr (· + ·) 0
  (hw.1 / wsum, hw.2 / wsum)

/-- Modelled from the spec: `nurbsCurveDerivatives` — a sequence of nDers+1
vectors [C, C', C'', …], each derivative order produced by the local
weighted-sum pattern over derivative basis values. -/
def nurbsCurveDerivatives (u : ℚ) (deg : Nat) (knots : List ℚ)
    (cps : List Vec2) (nDers : Nat) : List Vec2 :=
  let span := findSpan deg knots cps.length u
  (List.range (nDers + 1)).map fun k =>
    vsum ((List.range (deg + 1)).map fun j =>
      vsmul (NbasisDer knots k (span - deg + j) deg u) (cps.getD (span - deg + j) (0, 0)))

/-- The member state of ospl::NurbsCurve<2, T> (nurbs_curve.h lines 136-144). -/
structure NurbsCurve where
  deg : Nat
  knots : List ℚ
  cp : List Vec2
  w : List ℚ
  isRat : Bool
  isClamp0 : Bool
  isClamp1 : Bool
  isClosed : Bool
deriving DecidableEq, Repr

/-- The three-argument constructor (lines 26-38): throws unless
isValidRelation holds, otherwise assigns deg_, knots_, cp_ and clears
isRat_/isClamp0_/isClamp1_.  The member w_ is default-constructed (empty
vector); isClosed_ is never assigned, so its indeterminate value is the
explicit parameter j. -/
def construct3 (degree : Nat) (knots : List ℚ) (cps : List Vec2) (j : Bool) :
    Except String NurbsCurve :=
  if ¬ isValidRelation degree knots.length cps.length then
    .error "nKnots != degree + nCtrlPts + 1"
  else
    .ok { deg := degree, knots := knots, cp := cps, w := [], isRat := false,
          isClamp0 := false, isClamp1 := false, isClosed := j }

/-- The four-argument constructor (lines 40-45).  Its first statement,
`NurbsCurve(degree, knots, controlPoints);`, constructs and immediately
discards a temporary object — it does not delegate to the other
constructor — so on the object being built only w_ and isRat_ are
assigned; knots_ and cp_ keep their default-constructed empty values, and
deg_, isClamp0_, isClamp1_, isClosed_ keep indeterminate values, modelled
as the explicit parameters jdeg, jc0, jc1, jcl.  If the temporary's
constructor throws, the exception propagates. -/
def construct4 (degree : Nat) (knots : List ℚ) (cps : List Vec2) (weights : List ℚ)
    (jdeg : Nat) (jc0 jc1 jcl : Bool) : Except String NurbsCurve :=
  match construct3 degree knots cps jcl with
  | .error e => .error e
  | .ok _ =>
      .ok { deg := jdeg, knots := [], cp := [], w := weights, isRat := true,
            isClamp0 := jc0, isClamp1 := jc1, isClosed := jcl }

/-- `point` (lines 47-56): dispatches on isRat_ between the two evaluators. -/
def point (c : NurbsCurve) (u : ℚ) : Vec2 :=
  if ¬ c.isRat then nurbsCurvePoint u c.deg c.knots c.cp
  else nurbsRationalCurvePoint u c.deg c.knots c.cp c.w

/-- The evaluator invocation made by `point`, recording which free function
is called and with which arguments (the dispatch of lines 47-56). -/
inductive EvalCall where
  | nonRational (u : ℚ) (deg : Nat) (knots : List ℚ) (cps : List Vec2)
  | rational (u : ℚ) (deg : Nat) (knots : List ℚ) (cps : List Vec2) (weights : List ℚ)
deriving DecidableEq, Repr

/-- The call `point` issues (see `point` and `EvalCall`). -/
def pointCall (c : NurbsCurve) (u : ℚ) : EvalCall :=
  if ¬ c.isRat then .nonRational u c.deg c.knots c.cp
  else .rational u c.deg c.knots c.cp c.w

/-- `pointAndDerivatives` (lines 58-65): the output vector ptder is passed
by reference; the non-rational branch fills it via nurbsCurveDerivatives,
while the rational branch is commented out and leaves it unchanged. -/
def pointAndDerivatives (c : NurbsCurve) (u : ℚ) (nDers : Nat)
    (ptder : List Vec2) : List Vec2 :=
  if ¬ c.isRat then nurbsCurveDerivatives u c.deg c.knots c.cp nDers
  else ptder

/-- `controlPoint` (lines 73-75). -/
def controlPoint (c : NurbsCurve) (i : Nat) : Vec2 := c.cp.getD i (0, 0)

/-- `setControlPoint` (lines 77-79). -/
def setControlPoint (c : NurbsCurve) (i : Nat) (pt : Vec2) : NurbsCurve :=
  { c with cp := c.cp.set i pt }

/-- `numControlPoints` (lines 85-87). -/
def numControlPoints (c : NurbsCurve) : Nat := c.cp.length

/-- `setRational` (lines 89-91). -/
def setRational (c : NurbsCurve) (isRational : Bool) : NurbsCurve :=
  { c with isRat := isRational }

/-- `clampStart` (lines 93-100): no-op when isClamp0_ is set; otherwise
prepends deg_ copies of the first knot and sets the flag (knots_[0] on an
empty vector would be undefined; headD totalizes that read). -/
def clampStart (c : NurbsCurve) : NurbsCurve :=
  if c.isClamp0 then c
  else { c with knots := List.replicate c.deg (c.knots.headD 0) ++ c.knots,
                isClamp0 := true }

/-- `unclampStart` (lines 102-108): no-op when isClamp0_ is clear;
otherwise erases the first deg_ knots and clears the flag. -/
def unclampStart (c : NurbsCurve) : NurbsCurve :=
  if ¬ c.isClamp0 then c
  else { c with knots := c.knots.drop c.deg, isClamp0 := false }

/-- `clampEnd` (lines 110-117): no-op when isClamp1_ is set; otherwise
appends deg_ copies of the last knot and sets the flag. -/
def clampEnd (c : NurbsCurve) : NurbsCurve :=
  if c.isClamp1 then c
  else { c with knots := c.knots ++ List.replicate c.deg (c.knots.getLastD 0),
                isClamp1 := true }

/-- `unclampEnd` (lines 119-125): no-op when isClamp1_ is clear; otherwise
erases the last deg_ knots and clears the flag. -/
def unclampEnd (c : NurbsCurve) : NurbsCurve :=
  if ¬ c.isClamp1 then c
  else { c with knots := c.knots.take (c.knots.length - c.deg), isClamp1 := false }

/-- `setClosed` (lines 127-134): both the wrap branch and the unwrap branch
contain only comments, so neither mutates any member. -/
def setClosed (c : NurbsCurve) (flag : Bool) : NurbsCurve :=
  if flag ∧ ¬ c.isClosed then c
  else if ¬ flag ∧ c.isClosed then c
  else c

/-- The vector handed to glm::normalize by `tangent` (lines 67-71): ders[1]
after pointAndDerivatives(u, 1, ders) on a fresh empty vector.  The
subscript is modelled by List.get?, so the out-of-bounds read that occurs
for rational curves (whose branch leaves ders empty) yields none. -/
def tangentArg (c : NurbsCurve) (u : ℚ) : Option Vec2 :=
  (pointAndDerivatives c u 1 []).get? 1

/-- The graph of `tangent` (lines 67-71): r is the value tangent(u)
returns, namely glm::normalize(ders[1]), i.e. ders[1] scaled by the
inverse square root of its dot product with itself.  Relational because
the square root lives in ℝ.  (For ders[1] = 0 the C++ normalization is
NaN; under Lean's division-by-zero convention the model yields the zero
vector — in both cases not a unit vector, and in neither case an error.)
When tangentArg is none the subscript ders[1] was out of bounds and
tangent has no value at all. -/
def tangentIs (c : NurbsCurve) (u : ℚ) (r : ℝ × ℝ) : Prop :=
  ∃ d : Vec2, tangentArg c u = some d ∧
    r.1 = (d.1 : ℝ) / Real.sqrt ((d.1 : ℝ) ^ 2 + (d.2 : ℝ) ^ 2) ∧
    r.2 = (d.2 : ℝ) / Real.sqrt ((d.1 : ℝ) ^ 2 + (d.2 : ℝ) ^ 2)

/-- A real vector of unit length (squared norm 1). -/
def isUnitVec (v : ℝ × ℝ) : Prop := v.1 ^ 2 + v.2 ^ 2 = 1

/-- The knot-count invariant: knots.length = degree + numControlPoints + 1. -/
def knotCountInvariant (c : NurbsCurve) : Prop :=
  c.knots.length = c.deg + c.cp.length + 1

instance (c : NurbsCurve) : Decidable (knotCountInvariant c) := by
  unfold knotCountInvariant; infer_instance

/-! Concrete curves used in the theorems below. -/

/-- The four control points of the spec's cubic construction example. -/
def cps4 : List Vec2 := [(0, 0), (1, 0), (2, 0), (3, 0)]

/-- The clamped cubic knot vector of the spec's construction example. -/
def knots8 : List ℚ := [0, 0, 0, 0, 1, 1, 1, 1]

/-- A degree-1 non-rational curve on [0,1] with distinct control points
(the state construct3 1 [0,0,1,1] [(0,0),(1,0)] false produces). -/
def cLine : NurbsCurve :=
  { deg := 1, knots := [0, 0, 1, 1], cp := [(0, 0), (1, 0)], w := [],
    isRat := false, isClamp0 := false, isClamp1 := false, isClosed := false }

/-- A degree-1 non-rational curve whose two control points coincide, so its
first derivative vanishes everywhere. -/
def cDeg : NurbsCurve :=
  { deg := 1, knots := [0, 0, 1, 1], cp := [(1, 2), (1, 2)], w := [],
    isRat := false, isClamp0 := false, isClamp1 := false, isClosed := false }

/-- A curve state whose isRat_ flag is set (weights present and matching). -/
def cRat : NurbsCurve :=
  { deg := 1, knots := [0, 0, 1, 1], cp := [(0, 0), (1, 0)], w := [1, 1],
    isRat := true, isClamp0 := false, isClamp1 := false, isClosed := false }

/-! Claim theorems. -/

/-- C1: constructing a curve fails with a construction error exactly when
knots.length ≠ degree + controlPoints.length + 1; in particular the cubic
construction with 8 knots and 4 control points succeeds. -/
theorem construct_error_iff_knot_mismatch :
    (∀ (d : Nat) (k : List ℚ) (p : List Vec2) (j : Bool),
      (∃ c, construct3 d k p j = Except.ok c) ↔ k.length = d + p.length + 1) ∧
    (∃ c, construct3 3 knots8 cps4 false = Except.ok c) := by
  have main : ∀ (d : Nat) (k : List ℚ) (p : List Vec2) (j : Bool),
      (∃ c, construct3 d k p j = Except.ok c) ↔ k.length = d + p.length + 1 := by
    intro d k p j
    by_cases h : k.length = d + p.length + 1 <;>
      simp [construct3, isValidRelation, h]
  exact ⟨main, (main 3 knots8 cps4 false).mpr (by simp [knots8, cps4])⟩

/-- The state the weighted constructor actually leaves behind on valid
input: default-empty knots_ and cp_, indeterminate deg_ and flags
(instantiated 0/false here), with only w_ and isRat_ assigned. -/
def c2bad : NurbsCurve :=
  { deg := 0, knots := [], cp := [], w := [1, 1, 1, 1], isRat := true,
    isClamp0 := false, isClamp1 := false, isClosed := false }

/-- C2 (code bug): the weighted constructor's first statement constructs a
discarded temporary instead of delegating, so on the valid cubic input the
built object does not store the given degree, knots or control points —
its knots_ and cp_ are empty and only w_ and isRat_ were assigned. -/
theorem construct_weights_discards_arguments :
    construct4 3 knots8 cps4 [1, 1, 1, 1] 0 false false false = Except.ok c2bad ∧
    c2bad.cp ≠ cps4 ∧ c2bad.knots ≠ knots8 ∧ c2bad.w = [1, 1, 1, 1] ∧
    c2bad.isRat = true := by
  refine ⟨rfl, ?_, ?_, rfl, rfl⟩ <;> simp [c2bad, cps4, knots8]

/-- C3 counterexample: on a rational curve, pointAndDerivatives with
order 1 leaves the output vector untouched — here it stays empty, so it
does not hold order+1 = 2 vectors. -/
theorem rational_derivatives_stub_empty :
    pointAndDerivatives cRat (1/2) 1 [] = [] ∧ ([] : List Vec2).length ≠ 1 + 1 :=
  ⟨rfl, by simp⟩

/-- C3 amended: for a non-rational curve pointAndDerivatives(u, order)
yields exactly order+1 vectors; for a rational curve the stubbed branch
returns the output vector unchanged. -/
theorem pointAndDerivatives_length_amended (c : NurbsCurve) (u : ℚ)
    (nDers : Nat) (ptder : List Vec2) :
    (c.isRat = false → (pointAndDerivatives c u nDers ptder).length = nDers + 1) ∧
    (c.isRat = true → pointAndDerivatives c u nDers ptder = ptder) := by
  constructor <;> intro h <;> simp [pointAndDerivatives, h, nurbsCurveDerivatives]

/-- Witness for the C3 amended theorem at a concrete non-rational curve. -/
theorem pointAndDerivatives_length_amended_witness :
    (pointAndDerivatives cLine (1/2) 2 []).length = 2 + 1 :=
  (pointAndDerivatives_length_amended cLine (1/2) 2 []).1 rfl

/-- C4 counterexample: on the degenerate curve cDeg (coincident control
points) at u = 1/2 the first derivative is (0,0); tangent neither reports
a degenerate-tangent condition nor returns a unit vector — it returns the
normalization of the zero vector, which is not of unit length. -/
theorem tangent_zero_derivative_not_unit :
    tangentIs cDeg (1/2) ((0 : ℝ), (0 : ℝ)) ∧ ¬ isUnitVec ((0 : ℝ), (0 : ℝ)) := by
  constructor
  · refine ⟨(0, 0), ?_, ?_, ?_⟩
    · norm_num [tangentArg, pointAndDerivatives, nurbsCurveDerivatives, findSpan,
        findSpanAux, Nbasis, NbasisDer, vsum, vadd, vsmul, cDeg, List.range_succ]
    · simp
    · simp
  · simp [isUnitVec]

/-- C4 amended: tangent performs no degeneracy check.  For a rational
curve it has no value at all (the subscript ders[1] is out of bounds);
for a curve whose first derivative at u is nonzero it returns a unit
vector; for a zero first derivative it returns the (non-unit) zero vector
under Lean's division convention — in C++, NaNs — rather than failing. -/
theorem tangent_amended (c : NurbsCurve) (u : ℚ) :
    (c.isRat = true → ∀ r : ℝ × ℝ, ¬ tangentIs c u r) ∧
    (∀ (d : Vec2) (r : ℝ × ℝ), tangentArg c u = some d → tangentIs c u r →
      (d.1 ^ 2 + d.2 ^ 2 ≠ 0 → isUnitVec r) ∧
      (d = (0, 0) → r = ((0 : ℝ), (0 : ℝ)))) := by
  constructor
  · intro h r hr
    obtain ⟨d, hd, -, -⟩ := hr
    simp [tangentArg, pointAndDerivatives, h] at hd
  · rintro d r hd ⟨d', hd', h1, h2⟩
    rw [hd] at hd'
    cases hd'
    constructor
    · intro hq
      have hQ : (0 : ℝ) < (d.1 : ℝ) ^ 2 + (d.2 : ℝ) ^ 2 := by
        rcases lt_or_eq_of_le (add_nonneg (sq_nonneg ((d.1 : ℝ))) (sq_nonneg ((d.2 : ℝ)))) with h | h
        · exact h
        · exfalso
          apply hq
          have : ((d.1 ^ 2 + d.2 ^ 2 : ℚ) : ℝ) = 0 := by push_cast; linarith
          exact_mod_cast this
      have hs : Real.sqrt ((d.1 : ℝ) ^ 2 + (d.2 : ℝ) ^ 2) ^ 2
          = (d.1 : ℝ) ^ 2 + (d.2 : ℝ) ^ 2 := Real.sq_sqrt hQ.le
      unfold isUnitVec
      rw [h1, h2, div_pow, div_pow, hs, div_add_div_same, div_self hQ.ne']
    · intro h0
      subst h0
      have e1 : r.1 = 0 := by simpa using h1
      have e2 : r.2 = 0 := by simpa using h2
      exact Prod.ext e1 e2

/-- Witness for the C4 amended theorem: at cLine and u = 1/2 the first
derivative is (1,0) and the returned tangent (1,0) is a unit vector. -/
theorem tangent_amended_witness : isUnitVec ((1 : ℝ), (0 : ℝ)) := by
  have harg : tangentArg cLine (1/2) = some (1, 0) := by
    norm_num [tangentArg, pointAndDerivatives, nurbsCurveDerivatives, findSpan,
      findSpanAux, Nbasis, NbasisDer, vsum, vadd, vsmul, cLine, List.range_succ]
  have hti : tangentIs cLine (1/2) ((1 : ℝ), (0 : ℝ)) := by
    refine ⟨(1, 0), harg, ?_, ?_⟩ <;> norm_num
  exact ((tangent_amended cLine (1/2)).2 (1, 0) ((1 : ℝ), (0 : ℝ)) harg hti).1 (by norm_num)

/-- C5 counterexample: on a curve that is already start-clamped (reachable
by one clampStart from a fresh construction), clampStart is a no-op and a
following unclampStart strips degree knots, so the pair does not restore
that state's knot vector. -/
theorem clamp_unclamp_not_inverse_when_clamped :
    (unclampStart (clampStart (clampStart cLine))).knots = [0, 0, 1, 1] ∧
    (clampStart cLine).knots = [0, 0, 0, 1, 1] ∧
    (unclampStart (clampStart (clampStart cLine))).knots ≠ (clampStart cLine).knots := by
  refine ⟨?_, ?_, ?_⟩ <;> norm_num [cLine, clampStart, unclampStart]

/-- C5 amended: when the corresponding clamp flag is not yet set (as after
construction), clampStart followed by unclampStart restores the whole
curve state exactly, and likewise clampEnd followed by unclampEnd; from an
already-clamped state clampStart is a no-op and unclampStart removes
degree-many leading knots. -/
theorem clamp_unclamp_inverse_amended (c : NurbsCurve) :
    (c.isClamp0 = false → unclampStart (clampStart c) = c) ∧
    (c.isClamp1 = false → unclampEnd (clampEnd c) = c) := by
  obtain ⟨d, k, p, w, r, c0, c1, cl⟩ := c
  constructor <;> intro h <;> simp only at h <;> subst h
  · simp only [clampStart, unclampStart, Bool.false_eq_true, if_false,
      Bool.not_false, if_true, ite_true, ite_false]
    simp [List.drop_left' (List.length_replicate d (k.headD 0))]
  · simp only [clampEnd, unclampEnd, Bool.false_eq_true, if_false,
      Bool.not_false, if_true, ite_true, ite_false]
    have : (k ++ List.replicate d (k.getLastD 0)).length - d = k.length := by simp
    simp [this, List.take_left' rfl]

/-- Witness for the C5 amended theorem at a freshly constructed curve. -/
theorem clamp_unclamp_inverse_amended_witness :
    unclampStart (clampStart cLine) = cLine ∧ unclampEnd (clampEnd cLine) = cLine :=
  ⟨(clamp_unclamp_inverse_amended cLine).1 rfl,
   (clamp_unclamp_inverse_amended cLine).2 rfl⟩

/-- C6 counterexample: the knot-count invariant holds for the freshly
constructed cLine but is violated right after clampStart, which prepends
degree knots without adding control points. -/
theorem clampStart_breaks_knot_invariant :
    construct3 1 [0, 0, 1, 1] [(0, 0), (1, 0)] false = Except.ok cLine ∧
    knotCountInvariant cLine ∧ ¬ knotCountInvariant (clampStart cLine) := by
  refine ⟨rfl, ?_, ?_⟩ <;> simp [knotCountInvariant, cLine, clampStart]

/-- C6 amended: the knot-count invariant is established by construction and
preserved by setControlPoint, setRational and setClosed; the clamp and
unclamp operations change the knot count by degree and so do not preserve
it (for positive degree). -/
theorem knot_invariant_amended :
    (∀ (d : Nat) (k : List ℚ) (p : List Vec2) (j : Bool) (c : NurbsCurve),
      construct3 d k p j = Except.ok c → knotCountInvariant c) ∧
    (∀ c : NurbsCurve, knotCountInvariant c →
      (∀ (i : Nat) (v : Vec2), knotCountInvariant (setControlPoint c i v)) ∧
      (∀ b : Bool, knotCountInvariant (setRational c b)) ∧
      (∀ b : Bool, knotCountInvariant (setClosed c b))) := by
  constructor
  · intro d k p j c h
    by_cases hv : isValidRelation d k.length p.length <;>
      simp [construct3, hv] at h
    have hk : k.length = d + p.length + 1 := by
      simpa [isValidRelation] using hv
    simp [← h, knotCountInvariant, hk]
  · intro c hc
    refine ⟨fun i v => ?_, fun b => ?_, fun b => ?_⟩
    · simpa [setControlPoint, knotCountInvariant] using hc
    · simpa [setRational, knotCountInvariant] using hc
    · unfold setClosed
      split_ifs <;> exact hc

/-- Witness for the C6 amended theorem at a concrete construction. -/
theorem knot_invariant_amended_witness :
    knotCountInvariant cLine ∧ knotCountInvariant (setControlPoint cLine 0 (5, 5)) :=
  ⟨knot_invariant_amended.1 1 [0, 0, 1, 1] [(0, 0), (1, 0)] false cLine rfl,
   (knot_invariant_amended.2 cLine
      (knot_invariant_amended.1 1 [0, 0, 1, 1] [(0, 0), (1, 0)] false cLine rfl)).1
      0 (5, 5)⟩

/-- C7: each clamp/unclamp operation is idempotent, forces its own flag to
a fixed value, and leaves the degree, control points, weights, rational
flag, closed flag and the other clamp flag unchanged. -/
theorem clamp_idempotent_and_flag_frame (c : NurbsCurve) :
    clampStart (clampStart c) = clampStart c ∧
    unclampStart (unclampStart c) = unclampStart c ∧
    clampEnd (clampEnd c) = clampEnd c ∧
    unclampEnd (unclampEnd c) = unclampEnd c ∧
    (clampStart c).isClamp0 = true ∧ (unclampStart c).isClamp0 = false ∧
    (clampEnd c).isClamp1 = true ∧ (unclampEnd c).isClamp1 = false ∧
    ((clampStart c).deg = c.deg ∧ (clampStart c).cp = c.cp ∧
      (clampStart c).w = c.w ∧ (clampStart c).isRat = c.isRat ∧
      (clampStart c).isClamp1 = c.isClamp1 ∧ (clampStart c).isClosed = c.isClosed) ∧
    ((unclampStart c).deg = c.deg ∧ (unclampStart c).cp = c.cp ∧
      (unclampStart c).w = c.w ∧ (unclampStart c).isRat = c.isRat ∧
      (unclampStart c).isClamp1 = c.isClamp1 ∧ (unclampStart c).isClosed = c.isClosed) ∧
    ((clampEnd c).deg = c.deg ∧ (clampEnd c).cp = c.cp ∧
      (clampEnd c).w = c.w ∧ (clampEnd c).isRat = c.isRat ∧
      (clampEnd c).isClamp0 = c.isClamp0 ∧ (clampEnd c).isClosed = c.isClosed) ∧
    ((unclampEnd c).deg = c.deg ∧ (unclampEnd c).cp = c.cp ∧
      (unclampEnd c).w = c.w ∧ (unclampEnd c).isRat = c.isRat ∧
      (unclampEnd c).isClamp0 = c.isClamp0 ∧ (unclampEnd c).isClosed = c.isClosed) := by
  obtain ⟨d, k, p, w, r, c0, c1, cl⟩ := c
  cases c0 <;> cases c1 <;>
    simp [clampStart, unclampStart, clampEnd, unclampEnd]

/-- C8: setControlPoint changes only the addressed control point — degree,
knots, weights, every flag, every other control point and the control-point
count are unchanged, and the addressed entry (when in range) becomes the
given vector. -/
theorem setControlPoint_frame (c : NurbsCurve) (i : Nat) (v : Vec2) :
    (setControlPoint c i v).deg = c.deg ∧
    (setControlPoint c i v).knots = c.knots ∧
    (setControlPoint c i v).w = c.w ∧
    (setControlPoint c i v).isRat = c.isRat ∧
    (setControlPoint c i v).isClamp0 = c.isClamp0 ∧
    (setControlPoint c i v).isClamp1 = c.isClamp1 ∧
    (setControlPoint c i v).isClosed = c.isClosed ∧
    (∀ q : Nat, q ≠ i → (setControlPoint c i v).cp[q]? = c.cp[q]?) ∧
    (i < numControlPoints c → (setControlPoint c i v).cp[i]? = some v) ∧
    numControlPoints (setControlPoint c i v) = numControlPoints c := by
  refine ⟨rfl, rfl, rfl, rfl, rfl, rfl, rfl, fun q hq => ?_, fun hi => ?_, ?_⟩
  · exact List.getElem?_set_ne (fun he => hq he.symm)
  · exact List.getElem?_set_eq_of_lt v hi
  · simp [setControlPoint, numControlPoints]

/-- Witness for the C8 theorem at a concrete curve, index and vector. -/
theorem setControlPoint_frame_witness :
    (setControlPoint cLine 0 (5, 5)).cp[1]? = cLine.cp[1]? ∧
    (setControlPoint cLine 0 (5, 5)).cp[0]? = some (5, 5) :=
  ⟨(setControlPoint_frame cLine 0 (5, 5)).2.2.2.2.2.2.2.1 1 (by simp),
   (setControlPoint_frame cLine 0 (5, 5)).2.2.2.2.2.2.2.2.1 (by simp [cLine, numControlPoints])⟩

/-- C9: setClosed leaves the entire curve state unchanged — both the wrap
branch and the unwrap branch of the source are empty. -/
theorem setClosed_noop (c : NurbsCurve) (flag : Bool) : setClosed c flag = c := by
  unfold setClosed
  split <;> try rfl
  split <;> rfl

/-- C10: on a curve built without weights (stored weight vector empty),
setRational(true) followed by point(u) reaches the rational evaluator with
the empty weight vector — neither setRational nor point checks the weight
count, so the weights handed over are shorter than the control points. -/
theorem setRational_reaches_rational_eval_unvalidated
    (d : Nat) (k : List ℚ) (p : List Vec2) (j : Bool) (c : NurbsCurve) (u : ℚ)
    (h : construct3 d k p j = Except.ok c) (hp : p ≠ []) :
    pointCall (setRational c true) u = EvalCall.rational u d k p [] ∧
    (setRational c true).w.length < numControlPoints (setRational c true) := by
  have hc : c = { deg := d, knots := k, cp := p, w := [], isRat := false,
                  isClamp0 := false, isClamp1 := false, isClosed := j } := by
    by_cases hv : isValidRelation d k.length p.length <;>
      simp [construct3, hv] at h
    exact h.symm
  subst hc
  refine ⟨rfl, ?_⟩
  simpa [setRational, numControlPoints] using List.length_pos.mpr hp

/-- Witness for the C10 theorem at a concrete weightless curve. -/
theorem setRational_reaches_rational_eval_unvalidated_witness :
    pointCall (setRational cLine true) (1/2) =
      EvalCall.rational (1/2) 1 [0, 0, 1, 1] [(0, 0), (1, 0)] [] ∧
    (setRational cLine true).w.length < numControlPoints (setRational cLine true) :=
  setRational_reaches_rational_eval_unvalidated 1 [0, 0, 1, 1] [(0, 0), (1, 0)]
    false cLine (1/2) rfl (by simp)

end Ospl
